import Mathlib

/-!
Verification of the alert-evaluation and log-field-extraction core of the
Central-Logging-System dashboard (`src/dashboard/dashboard_light_professional.py`
and `src/dashboard/elasticsearch_client.py`).

The Python code operates on pandas DataFrames built from Elasticsearch hits.
We embed a DataFrame row as a `Record` whose optional fields are `none` when
the source document lacks the key.  A pandas column exists when at least one
document in the frame carries the key; a row missing the key in an existing
column holds NaN, and every `NaN >= c` comparison in Python is `False`.
Those semantics are reproduced below (`hasCol`, the `Option.none` branches,
and `PyVal` for the `row.get(...) or row.get('value', 0)` idiom).
Numeric values are embedded as rationals; every concrete value appearing in
the claims is exactly representable, so no floating-point rounding is
observable in any statement proved here.
-/

/-- Severity of an emitted alert ('WARNING' / 'CRITICAL' strings in Python). -/
inductive Severity
  | WARNING
  | CRITICAL
deriving DecidableEq

/-- One alert produced by evaluation: the metric (the `Type` column for the
alerts table), the severity and the numeric value embedded in the message. -/
structure Alert where
  metric : String
  severity : Severity
  value : Rat
deriving DecidableEq

/-- One Elasticsearch document / DataFrame row.  `none` means the document
does not carry the field.  `timestamp` is `@timestamp` in epoch seconds. -/
structure Record where
  timestamp : Int
  sensor_type : Option String := none
  temperature : Option Rat := none
  humidity : Option Rat := none
  value : Option Rat := none
  cpu_percent : Option Rat := none
  memory_percent : Option Rat := none
  disk_percent : Option Rat := none
deriving DecidableEq

/-- The `ALERT_RULES` dict (dashboard_light_professional.py lines 41-48). -/
def ALERT_RULES : List (String × List (String × Rat)) :=
  [("temperature", [("high", 35), ("critical", 45), ("low", 18)]),
   ("humidity", [("high", 70), ("critical", 85), ("low", 30)]),
   ("cpu", [("warning", 60), ("critical", 90)]),
   ("memory", [("warning", 60), ("critical", 85)]),
   ("disk", [("warning", 80), ("critical", 95)]),
   ("packet_loss", [("warning", 2), ("critical", 5)])]

/-- `ALERT_RULES[metric][key]`; every lookup performed by the code hits an
existing key, so the fallback 0 is never observable. -/
def ruleVal (metric key : String) : Rat :=
  (((ALERT_RULES.lookup metric).getD []).lookup key).getD 0

/-- A pandas column exists in the frame when at least one row carries the
field. -/
def hasCol (w : List Record) (f : Record → Option Rat) : Bool :=
  w.any fun r => (f r).isSome

/-- The repeated `if v >= critical: ... elif v >= warning: ...` pattern of
check_alerts and generate_alerts_table. -/
def bandAlerts (metric : String) (critTh warnTh v : Rat) : List Alert :=
  if critTh ≤ v then [⟨metric, Severity.CRITICAL, v⟩]
  else if warnTh ≤ v then [⟨metric, Severity.WARNING, v⟩]
  else []

/-- check_alerts lines 603-628: temperature block.  `w` is the full frame
(supplies the column set), `recent` the 30-second row filter.  A NaN cell
(row without the field in an existing column) and the `latest_temp is None`
case both yield no alert, which the `Option.none` branch captures. -/
def tempSection (w recent : List Record) : List Alert :=
  match recent.filter (fun r => r.sensor_type == some "temperature") with
  | [] => []
  | r0 :: _ =>
    match (if hasCol w (fun r => r.temperature) then r0.temperature
           else if hasCol w (fun r => r.value) then r0.value
           else none) with
    | none => []
    | some v =>
      bandAlerts "temperature" (ruleVal "temperature" "critical")
        (ruleVal "temperature" "high") v

/-- check_alerts lines 630-655: humidity block. -/
def humSection (w recent : List Record) : List Alert :=
  match recent.filter (fun r => r.sensor_type == some "humidity") with
  | [] => []
  | r0 :: _ =>
    match (if hasCol w (fun r => r.humidity) then r0.humidity
           else if hasCol w (fun r => r.value) then r0.value
           else none) with
    | none => []
    | some v =>
      bandAlerts "humidity" (ruleVal "humidity" "critical")
        (ruleVal "humidity" "high") v

/-- One `latest_sys.get(field, 0)` check of the system-health block: the
default 0 applies when the column is absent from the frame; a NaN cell
(column present, row without the field) fails every comparison. -/
def sysMetric (w : List Record) (r0 : Record) (name : String)
    (f : Record → Option Rat) : List Alert :=
  match (if hasCol w f then f r0 else some 0) with
  | none => []
  | some v => bandAlerts name (ruleVal name "critical") (ruleVal name "warning") v

/-- check_alerts lines 657-709: cpu, memory and disk from the latest
system_health row. -/
def sysSection (w recent : List Record) : List Alert :=
  match recent.filter (fun r => r.sensor_type == some "system_health") with
  | [] => []
  | r0 :: _ =>
    sysMetric w r0 "cpu" (fun r => r.cpu_percent) ++
    sysMetric w r0 "memory" (fun r => r.memory_percent) ++
    sysMetric w r0 "disk" (fun r => r.disk_percent)

/-- check_alerts (dashboard_light_professional.py lines 594-710): filter the
frame to the trailing 30 seconds, return no alerts when nothing is recent,
otherwise emit the temperature, humidity and system-health alerts in that
order.  `now` is `datetime.now(timezone.utc)` in epoch seconds. -/
def check_alerts (w : List Record) (now : Int) : List Alert :=
  let recent := w.filter fun r => now - 30 ≤ r.timestamp
  if recent.isEmpty then []
  else tempSection w recent ++ humSection w recent ++ sysSection w recent

/-- ElasticsearchClient.query_data (elasticsearch_client.py lines 50-80): a
successful search yields its hits, any exception is caught and surfaced as an
empty frame. -/
def query_data (fetch : Except String (List Record)) : List Record :=
  match fetch with
  | Except.ok hits => hits
  | Except.error _ => []

/-! ## Field extraction from free-text log lines

generate_loki_logs_section (lines 1544-1580) and the Loki fallback of
generate_alerts_table (lines 1076-1095) run `re.search` with the patterns

  `[Tt]emperature[:\s=]+(\d+\.?\d*)`
  `[Hh]umidity[:\s=]+(\d+\.?\d*)`
  `[Mm]otion[:\s=]+(\d+)`

plus the substring test `'motion detected' in msg.lower()`.  The character
classes of the three sub-patterns are pairwise disjoint, so greedy maximal
munch with a left-to-right scan over start positions is exactly Python's
backtracking search for these patterns. -/

/-- A character of the `[:\s=]` class (Python `\s` over ASCII input). -/
def isSepChar (c : Char) : Bool :=
  c == ':' || c == '=' || c == ' ' || c == '\t' || c == '\n' || c == '\r' ||
  c == '\x0b' || c == '\x0c'

/-- Strip an exact literal from the front of the input. -/
def stripLit : List Char → List Char → Option (List Char)
  | [], cs => some cs
  | _ :: _, [] => none
  | l :: ls, c :: cs => if c == l then stripLit ls cs else none

/-- Match `(\d+\.?\d*)` at the start of the input, returning the integer and
fractional digit runs of the captured text. -/
def matchNumAt (cs : List Char) : Option (List Char × List Char) :=
  let p := cs.span Char.isDigit
  if p.1.isEmpty then none
  else
    match p.2 with
    | '.' :: rest => some (p.1, (rest.span Char.isDigit).1)
    | _ => some (p.1, [])

/-- Match `[:\s=]+(\d+\.?\d*)` at the start of the input: at least one
separator character, then the captured numeral. -/
def matchSepsNum (cs : List Char) : Option (List Char × List Char) :=
  let p := cs.span isSepChar
  if p.1.isEmpty then none else matchNumAt p.2

/-- Match `[:\s=]+(\d+)` at the start of the input (the motion pattern's
integer-only capture). -/
def matchSepsInt (cs : List Char) : Option (List Char) :=
  let p := cs.span isSepChar
  if p.1.isEmpty then none
  else
    let q := p.2.span Char.isDigit
    if q.1.isEmpty then none else some q.1

/-- `re.search` for a pattern `[Xx]tail` followed by `m`: try every start
position from the left, succeed on the first full match. -/
def reSearchGen {α : Type} (up lo : Char) (tail : List Char)
    (m : List Char → Option α) : List Char → Option α
  | [] => none
  | c :: cs =>
    match (if c == up || c == lo then (stripLit tail cs).bind m else none) with
    | some v => some v
    | none => reSearchGen up lo tail m cs

/-- Numeric value of a digit run. -/
def digitsVal (ds : List Char) : Nat :=
  ds.foldl (fun n c => 10 * n + (c.toNat - 48)) 0

/-- Value of a captured numeral from its integer and fractional digit runs
(`float(...)` on the captured text): the integer part plus the fractional
digits scaled by their place value, written as one exact fraction. -/
def ratOfParts (ip fp : List Char) : Rat :=
  mkRat (digitsVal ip * 10 ^ fp.length + digitsVal fp) (10 ^ fp.length)

/-- `float(re.search(r'[Tt]emperature[:\s=]+(\d+\.?\d*)', msg).group(1))`,
`none` when the pattern does not occur. -/
def searchTempVal (cs : List Char) : Option Rat :=
  (reSearchGen 'T' 't' "emperature".toList matchSepsNum cs).map
    fun p => ratOfParts p.1 p.2

/-- Same for `[Hh]umidity[:\s=]+(\d+\.?\d*)`. -/
def searchHumVal (cs : List Char) : Option Rat :=
  (reSearchGen 'H' 'h' "umidity".toList matchSepsNum cs).map
    fun p => ratOfParts p.1 p.2

/-- `int(re.search(r'[Mm]otion[:\s=]+(\d+)', msg).group(1))`, `none` when the
pattern does not occur. -/
def searchMotionVal (cs : List Char) : Option Nat :=
  (reSearchGen 'M' 'm' "otion".toList matchSepsInt cs).map digitsVal

/-- `msg.lower()` (ASCII case folding). -/
def toLowerList (cs : List Char) : List Char :=
  cs.map Char.toLower

/-- Python's substring containment `needle in hay`. -/
def containsSub (needle : List Char) : List Char → Bool
  | [] => needle.isEmpty
  | c :: cs => needle.isPrefixOf (c :: cs) || containsSub needle cs

/-- A structured fragment synthesized from one free-text message: the metric
family and the extracted numeric value. -/
structure Fragment where
  metric : String
  value : Rat
deriving DecidableEq

/-- Temperature entry contributed by one message (lines 1549-1556). -/
def tempFragments (msg : String) : List Fragment :=
  match searchTempVal msg.toList with
  | some v => [⟨"temperature", v⟩]
  | none => []

/-- Humidity entry contributed by one message (lines 1558-1565). -/
def humFragments (msg : String) : List Fragment :=
  match searchHumVal msg.toList with
  | some v => [⟨"humidity", v⟩]
  | none => []

/-- Motion entry contributed by one message (lines 1567-1580): the explicit
`[Mm]otion[:\s=]+(\d+)` number when it occurs, otherwise value 1 when the
lowercased message contains the phrase "motion detected". -/
def motionFragments (msg : String) : List Fragment :=
  match searchMotionVal msg.toList with
  | some n => [⟨"motion", (n : Rat)⟩]
  | none =>
    if containsSub "motion detected".toList (toLowerList msg.toList) then
      [⟨"motion", 1⟩]
    else []

/-- All fragments extracted from one free-text message by the per-row body of
generate_loki_logs_section (lines 1544-1580). -/
def extract (msg : String) : List Fragment :=
  tempFragments msg ++ humFragments msg ++ motionFragments msg

/-! ## The recent-alerts table -/

/-- Result of `row.get(key[, default])` on a pandas row: the Python value
`None` (key absent from the frame and no default), NaN (column present, this
row lacks the field) or a number. -/
inductive PyVal
  | pynone
  | nan
  | num (v : Rat)
deriving DecidableEq

/-- Python truthiness: `None` and `0.0` are falsy, NaN and any other number
are truthy. -/
def PyVal.truthy : PyVal → Bool
  | .pynone => false
  | .nan => true
  | .num v => !(v == 0)

/-- Python `x >= c` for the values reaching the threshold comparisons: a NaN
comparison is `False`.  (`None` never reaches a comparison: the second
operand of the `or` below always carries a numeric default.) -/
def PyVal.pyGe (x : PyVal) (c : Rat) : Bool :=
  match x with
  | .num v => c ≤ v
  | _ => false

/-- The numeric content of a truthy comparison result (only ever read in the
`num` case, where a threshold comparison has succeeded). -/
def PyVal.ratOf : PyVal → Rat
  | .num v => v
  | _ => 0

/-- `row.get(key, default)` with pandas column semantics (see `hasCol`). -/
def rowGet (w : List Record) (f : Record → Option Rat) (r : Record)
    (dflt : PyVal) : PyVal :=
  if hasCol w f then
    match f r with
    | some v => PyVal.num v
    | none => PyVal.nan
  else dflt

/-- The per-row threshold check of generate_alerts_table (lines 1031-1063):
`metricField or row.get('value', 0)`, then the critical/high comparisons. -/
def tableRowCheck (w : List Record) (r : Record) (label metric : String)
    (f : Record → Option Rat) : List Alert :=
  let x := rowGet w f r PyVal.pynone
  let x := if x.truthy then x else rowGet w (fun s => s.value) r (PyVal.num 0)
  if x.pyGe (ruleVal metric "critical") then [⟨label, Severity.CRITICAL, x.ratOf⟩]
  else if x.pyGe (ruleVal metric "high") then [⟨label, Severity.WARNING, x.ratOf⟩]
  else []

/-- Alerts contributed by one Elasticsearch row of the 10-minute window. -/
def tableRowAlerts (w : List Record) (r : Record) : List Alert :=
  (if r.sensor_type == some "temperature" then
    tableRowCheck w r "Temperature" "temperature" (fun s => s.temperature)
  else []) ++
  (if r.sensor_type == some "humidity" then
    tableRowCheck w r "Humidity" "humidity" (fun s => s.humidity)
  else [])

/-- Alerts contributed by one Loki log line in the fallback branch of
generate_alerts_table (lines 1066-1111): the same regex extraction as the
Loki logs section feeding the same thresholds. -/
def lokiRowAlerts (msg : String) : List Alert :=
  (match searchTempVal msg.toList with
   | some v =>
     bandAlerts "Temperature" (ruleVal "temperature" "critical")
       (ruleVal "temperature" "high") v
   | none => []) ++
  (match searchHumVal msg.toList with
   | some v =>
     bandAlerts "Humidity" (ruleVal "humidity" "critical")
       (ruleVal "humidity" "high") v
   | none => [])

/-- generate_alerts_table (lines 1022-1119): scan the rows of the trailing
10-minute window for temperature and humidity threshold violations; when the
Elasticsearch window yields no alert rows, fall back to regex extraction over
the recent Loki lines.  The returned list is the `alert_records` the table
displays (the DataTable then shows its first 10 rows). -/
def generate_alerts_table (w : List Record) (lokiMsgs : List String)
    (now : Int) : List Alert :=
  let esPart :=
    if w.isEmpty then []
    else (w.filter fun r => now - 600 ≤ r.timestamp).flatMap (tableRowAlerts w)
  if esPart.isEmpty then lokiMsgs.flatMap lokiRowAlerts else esPart

/-! ## Helper lemmas -/

theorem ruleVal_temp_crit : ruleVal "temperature" "critical" = 45 := by decide

theorem ruleVal_temp_high : ruleVal "temperature" "high" = 35 := by decide

theorem ruleVal_hum_crit : ruleVal "humidity" "critical" = 85 := by decide

theorem ruleVal_hum_high : ruleVal "humidity" "high" = 70 := by decide

theorem ruleVal_cpu_crit : ruleVal "cpu" "critical" = 90 := by decide

theorem ruleVal_cpu_warn : ruleVal "cpu" "warning" = 60 := by decide

theorem ruleVal_mem_crit : ruleVal "memory" "critical" = 85 := by decide

theorem ruleVal_mem_warn : ruleVal "memory" "warning" = 60 := by decide

theorem ruleVal_disk_crit : ruleVal "disk" "critical" = 95 := by decide

theorem ruleVal_disk_warn : ruleVal "disk" "warning" = 80 := by decide

theorem bandAlerts_of_lt {m : String} {critTh warnTh v : Rat}
    (h : v < warnTh) (hcw : warnTh ≤ critTh) :
    bandAlerts m critTh warnTh v = [] := by
  unfold bandAlerts
  rw [if_neg (by linarith), if_neg (by linarith)]

theorem bandAlerts_of_crit {m : String} {critTh warnTh v : Rat}
    (h : critTh ≤ v) :
    bandAlerts m critTh warnTh v = [⟨m, Severity.CRITICAL, v⟩] := by
  unfold bandAlerts
  rw [if_pos h]

/-- The five metric families check_alerts evaluates (packet_loss has a rule
but no evaluation site anywhere in the dashboard, and the `low` thresholds
are likewise never read). -/
inductive MetricId
  | temperature
  | humidity
  | cpu
  | memory
  | disk
deriving DecidableEq

/-- The metric's key in `ALERT_RULES` and in the emitted alert. -/
def MetricId.mname : MetricId → String
  | .temperature => "temperature"
  | .humidity => "humidity"
  | .cpu => "cpu"
  | .memory => "memory"
  | .disk => "disk"

/-- The key of the lower severity band: `high` for the sensor metrics,
`warning` for the system-health metrics. -/
def MetricId.warnKey : MetricId → String
  | .temperature => "high"
  | .humidity => "high"
  | _ => "warning"

/-- A record carrying exactly one reading of the given metric family. -/
def singleRecord : MetricId → Rat → Int → Record
  | .temperature, v, t =>
    { timestamp := t, sensor_type := some "temperature", temperature := some v }
  | .humidity, v, t =>
    { timestamp := t, sensor_type := some "humidity", humidity := some v }
  | .cpu, v, t =>
    { timestamp := t, sensor_type := some "system_health", cpu_percent := some v }
  | .memory, v, t =>
    { timestamp := t, sensor_type := some "system_health", memory_percent := some v }
  | .disk, v, t =>
    { timestamp := t, sensor_type := some "system_health", disk_percent := some v }

theorem check_alerts_single (m : MetricId) (v : Rat) (t now : Int)
    (hrec : now - 30 ≤ t) :
    check_alerts [singleRecord m v t] now =
      bandAlerts m.mname (ruleVal m.mname "critical")
        (ruleVal m.mname m.warnKey) v := by
  cases m <;>
    simp [check_alerts, tempSection, humSection, sysSection, sysMetric,
      hasCol, singleRecord, MetricId.mname, MetricId.warnKey, hrec,
      List.filter, bandAlerts, ruleVal_temp_crit, ruleVal_temp_high,
      ruleVal_hum_crit, ruleVal_hum_high, ruleVal_cpu_crit, ruleVal_cpu_warn,
      ruleVal_mem_crit, ruleVal_mem_warn, ruleVal_disk_crit, ruleVal_disk_warn] <;>
    norm_num

theorem bandAlerts_metric_mem {a : Alert} {m : String} {critTh warnTh v : Rat}
    (h : a ∈ bandAlerts m critTh warnTh v) : a.metric = m := by
  unfold bandAlerts at h
  split_ifs at h <;> simp_all

theorem bandAlerts_map_metric (m : String) (critTh warnTh v : Rat) :
    ((bandAlerts m critTh warnTh v).map Alert.metric).Sublist [m] := by
  unfold bandAlerts
  split_ifs <;> simp

theorem tempSection_map_metric (w recent : List Record) :
    ((tempSection w recent).map Alert.metric).Sublist ["temperature"] := by
  unfold tempSection
  split
  · simp
  · split
    · simp
    · exact bandAlerts_map_metric _ _ _ _

theorem humSection_map_metric (w recent : List Record) :
    ((humSection w recent).map Alert.metric).Sublist ["humidity"] := by
  unfold humSection
  split
  · simp
  · split
    · simp
    · exact bandAlerts_map_metric _ _ _ _

theorem sysMetric_map_metric (w : List Record) (r0 : Record) (name : String)
    (f : Record → Option Rat) :
    ((sysMetric w r0 name f).map Alert.metric).Sublist [name] := by
  unfold sysMetric
  split
  · simp
  · exact bandAlerts_map_metric _ _ _ _

theorem sysSection_map_metric (w recent : List Record) :
    ((sysSection w recent).map Alert.metric).Sublist ["cpu", "memory", "disk"] := by
  unfold sysSection
  split
  · simp
  · rw [List.map_append, List.map_append]
    show List.Sublist _ ((["cpu"] ++ ["memory"]) ++ ["disk"])
    exact ((sysMetric_map_metric _ _ _ _).append
      (sysMetric_map_metric _ _ _ _)).append (sysMetric_map_metric _ _ _ _)

/-- C1: for every metric carrying a warning/high threshold and a critical
threshold in ALERT_RULES and evaluated by check_alerts (temperature,
humidity, cpu, memory, disk — packet_loss has such thresholds but no
evaluation site, so no value ever produces a packet_loss alert), a window
whose record carries a value strictly below the warning threshold produces
no alert at all, and a value at or above the critical threshold produces
exactly the CRITICAL alert for that metric, never a WARNING one. -/
theorem claim_C1_thresholds (m : MetricId) (v : Rat) (t now : Int)
    (hrec : now - 30 ≤ t) :
    (v < ruleVal m.mname m.warnKey →
      check_alerts [singleRecord m v t] now = []) ∧
    (ruleVal m.mname "critical" ≤ v →
      check_alerts [singleRecord m v t] now =
        [⟨m.mname, Severity.CRITICAL, v⟩]) := by
  constructor
  · intro h
    rw [check_alerts_single m v t now hrec]
    exact bandAlerts_of_lt h (by cases m <;> decide)
  · intro h
    rw [check_alerts_single m v t now hrec]
    exact bandAlerts_of_crit h

theorem claim_C1_thresholds_witness :
    check_alerts [singleRecord MetricId.temperature 50 0] 0 =
      [⟨"temperature", Severity.CRITICAL, 50⟩] :=
  (claim_C1_thresholds MetricId.temperature 50 0 0 (by decide)).2 (by decide)

/-- C2: a 10-minute window holding one temperature record at exactly 45 (the
critical threshold) and one at 44.9 makes generate_alerts_table emit exactly
one CRITICAL alert (for the 45 record) and one WARNING alert (for the 44.9
record): the threshold comparisons are inclusive at the boundary. -/
theorem claim_C2_boundary :
    generate_alerts_table
      [{ timestamp := 100, sensor_type := some "temperature",
         temperature := some 45 },
       { timestamp := 90, sensor_type := some "temperature",
         temperature := some (mkRat 449 10) }] [] 100 =
      [⟨"Temperature", Severity.CRITICAL, 45⟩,
       ⟨"Temperature", Severity.WARNING, mkRat 449 10⟩] := by
  decide

/-- C3: a system_health record with no memory_percent field evaluates
without error and yields no memory alert for any cpu reading, while the cpu
reading of the same record still produces its own alert once it meets the
warning threshold (CRITICAL when it also meets the critical one). -/
theorem claim_C3_missing_field (c : Rat) (t now : Int) (hrec : now - 30 ≤ t) :
    (∀ a ∈ check_alerts [singleRecord MetricId.cpu c t] now,
      a.metric ≠ "memory") ∧
    (ruleVal "cpu" "warning" ≤ c →
      check_alerts [singleRecord MetricId.cpu c t] now =
        [⟨"cpu",
          if ruleVal "cpu" "critical" ≤ c then Severity.CRITICAL
          else Severity.WARNING, c⟩]) := by
  constructor
  · intro a ha
    rw [check_alerts_single MetricId.cpu c t now hrec] at ha
    rw [bandAlerts_metric_mem ha]
    decide
  · intro h
    rw [check_alerts_single MetricId.cpu c t now hrec]
    simp only [MetricId.mname, MetricId.warnKey]
    rw [ruleVal_cpu_warn] at h
    rw [ruleVal_cpu_crit, ruleVal_cpu_warn]
    unfold bandAlerts
    by_cases hc : (90 : Rat) ≤ c
    · rw [if_pos hc, if_pos hc]
    · rw [if_neg hc, if_neg hc, if_pos h]

theorem claim_C3_missing_field_witness :
    check_alerts [singleRecord MetricId.cpu 70 0] 0 =
      [⟨"cpu", Severity.WARNING, 70⟩] := by
  have h := (claim_C3_missing_field 70 0 0 (by decide)).2 (by decide)
  rw [h]
  decide

theorem tempSection_eq_nil (w recent : List Record)
    (h : recent.filter (fun r => r.sensor_type == some "temperature") = []) :
    tempSection w recent = [] := by
  unfold tempSection
  rw [h]

theorem humSection_eq_nil (w recent : List Record)
    (h : recent.filter (fun r => r.sensor_type == some "humidity") = []) :
    humSection w recent = [] := by
  unfold humSection
  rw [h]

theorem sysSection_eq_nil (w recent : List Record)
    (h : recent.filter (fun r => r.sensor_type == some "system_health") = []) :
    sysSection w recent = [] := by
  unfold sysSection
  rw [h]

theorem metric_of_mem_of_sublist {a : Alert} {l : List Alert}
    {names : List String} (hsub : (l.map Alert.metric).Sublist names)
    (h : a ∈ l) : a.metric ∈ names :=
  hsub.subset (List.mem_map_of_mem Alert.metric h)

theorem mem_check_alerts {a : Alert} {w : List Record} {now : Int}
    (h : a ∈ check_alerts w now) :
    a ∈ tempSection w (w.filter fun r => now - 30 ≤ r.timestamp) ∨
    a ∈ humSection w (w.filter fun r => now - 30 ≤ r.timestamp) ∨
    a ∈ sysSection w (w.filter fun r => now - 30 ≤ r.timestamp) := by
  simp only [check_alerts] at h
  split at h
  · simp at h
  · simp only [List.mem_append] at h
    tauto

/-- C8: alert evaluation is a pure deterministic function of the window:
equal windows give equal alert lists (order included), and the emitted
metrics always follow the fixed sequence temperature, humidity, cpu, memory,
disk (so any truncation by the presenter is stable). -/
theorem claim_C8_deterministic (w₁ w₂ : List Record) (now : Int)
    (h : w₁ = w₂) :
    check_alerts w₁ now = check_alerts w₂ now ∧
    ((check_alerts w₁ now).map Alert.metric).Sublist
      ["temperature", "humidity", "cpu", "memory", "disk"] := by
  subst h
  refine ⟨rfl, ?_⟩
  simp only [check_alerts]
  split
  · simp
  · rw [List.map_append, List.map_append]
    show List.Sublist _
      ((["temperature"] ++ ["humidity"]) ++ ["cpu", "memory", "disk"])
    exact ((tempSection_map_metric _ _).append
      (humSection_map_metric _ _)).append (sysSection_map_metric _ _)

theorem claim_C8_deterministic_witness :
    check_alerts [] 0 = check_alerts [] 0 ∧
    ((check_alerts [] 0).map Alert.metric).Sublist
      ["temperature", "humidity", "cpu", "memory", "disk"] :=
  claim_C8_deterministic [] [] 0 rfl

/-- C9: an upstream fetch failure surfaces as the same empty frame as a
fetch with no hits, and on an empty window check_alerts returns no alerts;
more generally, when no record of a category lies in the trailing 30-second
span, no alert of that category's metrics is produced. -/
theorem claim_C9_empty_window (w : List Record) (now : Int) (e : String) :
    check_alerts (query_data (Except.error e)) now = [] ∧
    check_alerts (query_data (Except.ok ([] : List Record))) now = [] ∧
    ((∀ r ∈ w, now - 30 ≤ r.timestamp → r.sensor_type ≠ some "temperature") →
      ∀ a ∈ check_alerts w now, a.metric ≠ "temperature") ∧
    ((∀ r ∈ w, now - 30 ≤ r.timestamp → r.sensor_type ≠ some "humidity") →
      ∀ a ∈ check_alerts w now, a.metric ≠ "humidity") ∧
    ((∀ r ∈ w, now - 30 ≤ r.timestamp → r.sensor_type ≠ some "system_health") →
      ∀ a ∈ check_alerts w now,
        a.metric ≠ "cpu" ∧ a.metric ≠ "memory" ∧ a.metric ≠ "disk") := by
  refine ⟨rfl, rfl, ?_, ?_, ?_⟩
  · intro hno a ha
    rcases mem_check_alerts ha with h | h | h
    · have hnil : (w.filter fun r => now - 30 ≤ r.timestamp).filter
          (fun r => r.sensor_type == some "temperature") = [] := by
        rw [List.filter_eq_nil_iff]
        intro r hr
        have hw := List.mem_filter.mp hr
        have := hno r hw.1 (by simpa using hw.2)
        simpa using this
      rw [tempSection_eq_nil _ _ hnil] at h
      simp at h
    · have hm := metric_of_mem_of_sublist (humSection_map_metric _ _) h
      simp only [List.mem_singleton] at hm
      rw [hm]
      decide
    · have hm := metric_of_mem_of_sublist (sysSection_map_metric _ _) h
      simp only [List.mem_cons, List.mem_singleton, List.not_mem_nil,
        or_false] at hm
      rcases hm with h1 | h1 | h1 <;> (rw [h1]; decide)
  · intro hno a ha
    rcases mem_check_alerts ha with h | h | h
    · have hm := metric_of_mem_of_sublist (tempSection_map_metric _ _) h
      simp only [List.mem_singleton] at hm
      rw [hm]
      decide
    · have hnil : (w.filter fun r => now - 30 ≤ r.timestamp).filter
          (fun r => r.sensor_type == some "humidity") = [] := by
        rw [List.filter_eq_nil_iff]
        intro r hr
        have hw := List.mem_filter.mp hr
        have := hno r hw.1 (by simpa using hw.2)
        simpa using this
      rw [humSection_eq_nil _ _ hnil] at h
      simp at h
    · have hm := metric_of_mem_of_sublist (sysSection_map_metric _ _) h
      simp only [List.mem_cons, List.mem_singleton, List.not_mem_nil,
        or_false] at hm
      rcases hm with h1 | h1 | h1 <;> (rw [h1]; decide)
  · intro hno a ha
    rcases mem_check_alerts ha with h | h | h
    · have hm := metric_of_mem_of_sublist (tempSection_map_metric _ _) h
      simp only [List.mem_singleton] at hm
      rw [hm]
      refine ⟨by decide, by decide, by decide⟩
    · have hm := metric_of_mem_of_sublist (humSection_map_metric _ _) h
      simp only [List.mem_singleton] at hm
      rw [hm]
      refine ⟨by decide, by decide, by decide⟩
    · have hnil : (w.filter fun r => now - 30 ≤ r.timestamp).filter
          (fun r => r.sensor_type == some "system_health") = [] := by
        rw [List.filter_eq_nil_iff]
        intro r hr
        have hw := List.mem_filter.mp hr
        have := hno r hw.1 (by simpa using hw.2)
        simpa using this
      rw [sysSection_eq_nil _ _ hnil] at h
      simp at h

theorem claim_C9_empty_window_witness :
    check_alerts (query_data (Except.error "connection refused")) 0 = [] ∧
    (⟨"cpu", Severity.CRITICAL, 99⟩ : Alert).metric ≠ "temperature" :=
  ⟨(claim_C9_empty_window [] 0 "connection refused").1,
   (claim_C9_empty_window [singleRecord MetricId.cpu 99 0] 0 "x").2.2.1
     (by decide) ⟨"cpu", Severity.CRITICAL, 99⟩ (by decide)⟩

theorem tempFragments_metric (msg : String) :
    ∀ f ∈ tempFragments msg, f.metric = "temperature" := by
  unfold tempFragments
  split <;> simp

theorem humFragments_metric (msg : String) :
    ∀ f ∈ humFragments msg, f.metric = "humidity" := by
  unfold humFragments
  split <;> simp

theorem motionFragments_metric (msg : String) :
    ∀ f ∈ motionFragments msg, f.metric = "motion" := by
  unfold motionFragments
  split
  · simp
  · split <;> simp

/-- C4: extraction round-trip on the three sample messages, with the
temperature value parsed as the exact decimal 37.5 and the implicit motion
phrase parsed as the integer 1; extraction is total, so no input raises. -/
theorem claim_C4_round_trip :
    extract "Temperature: 37.5°C" = [⟨"temperature", mkRat 75 2⟩] ∧
    extract "motion detected" = [⟨"motion", 1⟩] ∧
    extract "System nominal" = [] := by
  decide

/-- C5 counterexample: the claimed case-insensitive matching fails on the
claim's own example message "TEMPERATURE=30", which extracts nothing (the
patterns `[Tt]emperature...` only tolerate case in the first letter). -/
theorem claim_C5_counterexample : extract "TEMPERATURE=30" = [] := by
  decide

/-- C5 amended: the extractor matches each metric name with only its first
letter case-insensitive (the rest must be lowercase), then a required run of
one or more separator characters (colon, equals sign or whitespace), then a
numeric literal — integer or decimal for temperature and humidity, integer
digits only for motion. -/
theorem claim_C5_matching_policy :
    extract "temperature: 30" = [⟨"temperature", 30⟩] ∧
    extract "Temperature=30" = [⟨"temperature", 30⟩] ∧
    extract "TEMPERATURE=30" = [] ∧
    extract "temperature30" = [] ∧
    extract "Temperature 30.5" = [⟨"temperature", mkRat 61 2⟩] ∧
    extract "HUMIDITY: 50" = [] ∧
    extract "humidity=50" = [⟨"humidity", 50⟩] ∧
    extract "Motion: 7" = [⟨"motion", 7⟩] ∧
    extract "MOTION=1" = [] := by
  decide

/-- C6: a message mentioning several metric families yields one fragment per
matching family, independently: the extraction result always decomposes into
a temperature part, a humidity part and a motion part, and the sample
two-metric message yields exactly its two fragments. -/
theorem claim_C6_multi_metric (msg : String) :
    extract "Temperature: 22.0, Humidity: 55" =
      [⟨"temperature", 22⟩, ⟨"humidity", 55⟩] ∧
    ∃ t h mo, extract msg = t ++ h ++ mo ∧
      (∀ f ∈ t, f.metric = "temperature") ∧
      (∀ f ∈ h, f.metric = "humidity") ∧
      (∀ f ∈ mo, f.metric = "motion") :=
  ⟨by decide,
   tempFragments msg, humFragments msg, motionFragments msg, rfl,
   tempFragments_metric msg, humFragments_metric msg,
   motionFragments_metric msg⟩

theorem filter_motion_extract (msg : String) :
    (extract msg).filter (fun f => f.metric == "motion") =
      motionFragments msg := by
  unfold extract
  rw [List.filter_append, List.filter_append]
  have h1 : (tempFragments msg).filter (fun f => f.metric == "motion") = [] := by
    unfold tempFragments
    split <;> simp
  have h2 : (humFragments msg).filter (fun f => f.metric == "motion") = [] := by
    unfold humFragments
    split <;> simp
  have h3 : (motionFragments msg).filter (fun f => f.metric == "motion") =
      motionFragments msg := by
    unfold motionFragments
    split
    · simp
    · split <;> simp
  rw [h1, h2, h3]
  simp

/-- C7: the phrase "motion detected" (case-insensitive) contributes the
implicit motion value 1 only when the explicit `motion<sep><digits>` pattern
does not match; when it does, the message contributes exactly one motion
fragment carrying the explicit integer, as on the sample message holding
both "Motion: 0" and "motion detected". -/
theorem claim_C7_motion_priority (msg : String) (n : Nat) :
    (searchMotionVal msg.toList = none →
      containsSub "motion detected".toList (toLowerList msg.toList) = true →
      (extract msg).filter (fun f => f.metric == "motion") =
        [⟨"motion", 1⟩]) ∧
    (searchMotionVal msg.toList = some n →
      (extract msg).filter (fun f => f.metric == "motion") =
        [⟨"motion", (n : Rat)⟩]) ∧
    extract "Motion: 0, motion detected" = [⟨"motion", 0⟩] := by
  refine ⟨?_, ?_, by decide⟩
  · intro hn hp
    rw [filter_motion_extract]
    simp only [motionFragments, hn]
    rw [if_pos hp]
  · intro hn
    rw [filter_motion_extract]
    simp only [motionFragments, hn]

theorem claim_C7_motion_priority_witness :
    (extract "motion detected").filter (fun f => f.metric == "motion") =
      [⟨"motion", 1⟩] ∧
    (extract "Motion: 5").filter (fun f => f.metric == "motion") =
      [⟨"motion", 5⟩] :=
  ⟨(claim_C7_motion_priority "motion detected" 0).1 (by decide) (by decide),
   (claim_C7_motion_priority "Motion: 5" 5).2.1 (by decide)⟩

/-- C10: in the alerts-table evaluation a temperature record whose
`temperature` field is the falsy value 0 falls back to the generic `value`
field, so a record with temperature 0 and a `value` at or above the high
threshold still produces a WARNING (or CRITICAL) temperature alert. -/
theorem claim_C10_value_fallback (v : Rat) (t now : Int)
    (hrec : now - 600 ≤ t) (hHigh : ruleVal "temperature" "high" ≤ v) :
    generate_alerts_table
      [{ timestamp := t, sensor_type := some "temperature",
         temperature := some 0, value := some v }] [] now =
      [⟨"Temperature",
        if ruleVal "temperature" "critical" ≤ v then Severity.CRITICAL
        else Severity.WARNING, v⟩] := by
  rw [ruleVal_temp_high] at hHigh
  rw [ruleVal_temp_crit]
  have h1 : now ≤ t + 600 := by omega
  have h2 : ¬ t + 600 < now := by omega
  by_cases hc : (45 : Rat) ≤ v
  · simp [generate_alerts_table, tableRowAlerts, tableRowCheck, rowGet, hasCol,
      PyVal.truthy, PyVal.pyGe, PyVal.ratOf, h1, h2, ruleVal_temp_crit,
      ruleVal_temp_high, hc]
  · simp [generate_alerts_table, tableRowAlerts, tableRowCheck, rowGet, hasCol,
      PyVal.truthy, PyVal.pyGe, PyVal.ratOf, h1, h2, ruleVal_temp_crit,
      ruleVal_temp_high, hc, hHigh]

theorem claim_C10_value_fallback_witness :
    generate_alerts_table
      [{ timestamp := 0, sensor_type := some "temperature",
         temperature := some 0, value := some 40 }] [] 0 =
      [⟨"Temperature", Severity.WARNING, 40⟩] := by
  have h := claim_C10_value_fallback 40 0 0 (by decide) (by decide)
  rw [h]
  decide

theorem claim_C6_multi_metric_witness :
    extract "Temperature: 22.0, Humidity: 55" =
      [⟨"temperature", 22⟩, ⟨"humidity", 55⟩] :=
  (claim_C6_multi_metric "").1
